import Mathlib

/-!
Shallow embedding of the hero/comment REST API:
  - data model from src/src/models/hero.js (the Comment model file is not in the
    repository snapshot; it is modelled from the spec where noted),
  - the six route handlers from src/src/routers/hero.js.

The external document store (mongoose/MongoDB) is modelled as deterministic list
operations on a store state: find {} returns the collection in its natural
(insertion) order, sort is a stable reorder, skip is List.drop, limit is
List.take.  Fallible paths (store errors, cast errors on malformed identifiers,
JavaScript runtime errors such as dereferencing a property of null or calling an
undefined identifier) are explicit Outcome constructors.
-/

namespace HeroApi

/-- powerstats subdocument of the hero schema (models/hero.js): six numeric
attributes. Per the spec they are non-negative numbers, modelled as Nat. -/
structure Powerstats where
  intelligence : Nat
  strength : Nat
  speed : Nat
  durability : Nat
  power : Nat
  combat : Nat
deriving DecidableEq, Repr

/-- appearance subdocument of the hero schema. -/
structure Appearance where
  gender : String
  race : String
  height : List String
  weight : List String
  eyeColor : String
  hairColor : String
deriving DecidableEq, Repr

/-- biography subdocument of the hero schema. -/
structure Biography where
  fullName : String
  alterEgos : String
  aliases : List String
  placeOfBirth : String
  firstAppearance : String
  publisher : String
  alignment : String
deriving DecidableEq, Repr

/-- work subdocument of the hero schema. -/
structure Work where
  occupation : String
  base : String
deriving DecidableEq, Repr

/-- connections subdocument of the hero schema. -/
structure Connections where
  groupAffiliation : String
  relatives : String
deriving DecidableEq, Repr

/-- images subdocument of the hero schema. -/
structure Images where
  xs : String
  sm : String
  md : String
  lg : String
deriving DecidableEq, Repr

/-- A hero document (models/hero.js).  `id` is the store-assigned internal
identifier (_id); the schema option timestamps maintains createdAt/updatedAt. -/
structure Hero where
  id : Nat
  original_id : Nat
  name : String
  slug : String
  powerstats : Powerstats
  appearance : Appearance
  biography : Biography
  work : Work
  connections : Connections
  images : Images
  createdAt : Nat
  updatedAt : Nat
deriving DecidableEq, Repr

/-- Modelled from the spec: the Comment model file (models/comment.js) is
required by the router but is not in the repository snapshot.  Per spec §3 a
comment holds a reference to the owning hero's identifier, a free-text body, and
creation/update timestamps maintained automatically by the store (as with the
hero schema's timestamps option, i.e. fields createdAt and updatedAt).  The
schema has NO field named `timestamps`. -/
structure Comment where
  id : Nat
  hero : Nat
  text : String
  createdAt : Nat
  updatedAt : Nat
deriving DecidableEq, Repr

/-- The document store's state: the two collections in natural (insertion)
order. -/
structure Store where
  heroes : List Hero
  comments : List Comment
deriving DecidableEq, Repr

/-- A path identifier as received by a route.  `validKey = some k` when the
string is a well-formed store identifier (24-char hex ObjectId) denoting key
`k`; `validKey = none` when the string is malformed, in which case the store's
findById reports a CastError to the exec callback. -/
structure Ident where
  validKey : Option Nat
deriving DecidableEq, Repr

/-- What a single request produces.
`json body` is `res.json(body)` (HTTP 200 with a JSON body).
`referenceError` is an uncaught JavaScript ReferenceError (calling an
identifier that is not in scope): no HTTP response is produced.
`typeError` is an uncaught JavaScript TypeError (reading a property of null):
no HTTP response is produced.
`handled` would be the outcome of a successful call to handleError; it is never
produced because handleError is not defined (see `moduleScope`). -/
inductive Outcome (α : Type) where
  | json (body : α)
  | referenceError
  | typeError
  | handled
deriving DecidableEq, Repr

/-- The HTTP status code of an outcome, when a response is produced at all.
The only response the handlers ever construct is `res.json(...)`, which sends
status 200; the error outcomes abort the request without a response.
(`handled` is unreachable, see `errorBranch`.) -/
def Outcome.statusCode : Outcome α → Option Nat
  | .json _ => some 200
  | .referenceError => none
  | .typeError => none
  | .handled => none

/-- The names bound in the module scope of src/src/routers/hero.js: the two
requires at the top, the two model requires, the router, and the two paging
constants.  No other identifier is declared in the module, and none of the
handlers' own parameters (req, res, err, hero, comment, ...) is named
handleError. -/
def moduleScope : List String :=
  ["express", "isObjectIdOrHexString", "router", "Hero", "Comment",
   "DEFAULT_HEROES_PER_PAGE", "DEFAULT_COMMENTS_PER_PAGE"]

/-- Whether the identifier handleError resolves in the module scope. -/
def handleErrorInScope : Bool := moduleScope.contains "handleError"

/-- Evaluating `return handleError(err)`: the identifier handleError is looked
up in the enclosing scopes (the module scope is the outermost that could bind
it); calling an unresolvable identifier raises a ReferenceError. -/
def errorBranch (α : Type) : Outcome α :=
  if handleErrorInScope then Outcome.handled else Outcome.referenceError

def DEFAULT_HEROES_PER_PAGE : Nat := 10

def DEFAULT_COMMENTS_PER_PAGE : Nat := 3

/-- `.skip((page-1)*limit).limit(limit)` on a result list: the window of page
`page` with `limit` items per page. -/
def pageWindow (limit page : Nat) (l : List α) : List α :=
  (l.drop ((page - 1) * limit)).take limit

/-- `req.query.page || 1`: an omitted page parameter defaults to 1. -/
def pageOrDefault (pageParam : Option Nat) : Nat :=
  match pageParam with
  | none => 1
  | some p => p

/-- Lexicographic comparison of strings as character lists, the store's
default (binary) collation used when sorting on a string key. -/
def charListLe : List Char → List Char → Bool
  | [], _ => true
  | _ :: _, [] => false
  | a :: as, b :: bs =>
    if a.toNat < b.toNat then true
    else if b.toNat < a.toNat then false
    else charListLe as bs

theorem charListLe_total : ∀ a b : List Char,
    charListLe a b = true ∨ charListLe b a = true
  | [], _ => Or.inl rfl
  | _ :: _, [] => Or.inr rfl
  | a :: as, b :: bs => by
    simp only [charListLe]
    rcases Nat.lt_trichotomy a.toNat b.toNat with h | h | h
    · left; simp [h]
    · have h1 : ¬ a.toNat < b.toNat := by omega
      have h2 : ¬ b.toNat < a.toNat := by omega
      simpa [h1, h2] using charListLe_total as bs
    · right; simp [h]

theorem charListLe_trans : ∀ a b c : List Char,
    charListLe a b = true → charListLe b c = true → charListLe a c = true
  | [], _, _, _, _ => rfl
  | _ :: _, [], _, h1, _ => by simp [charListLe] at h1
  | _ :: _, _ :: _, [], _, h2 => by simp [charListLe] at h2
  | a :: as, b :: bs, c :: cs, h1, h2 => by
    simp only [charListLe] at h1 h2 ⊢
    rcases Nat.lt_trichotomy a.toNat b.toNat with hab | hab | hab
    · rcases Nat.lt_trichotomy b.toNat c.toNat with hbc | hbc | hbc
      · simp [show a.toNat < c.toNat by omega]
      · simp [show a.toNat < c.toNat by omega]
      · have n1 : ¬ b.toNat < c.toNat := by omega
        simp [n1, hbc] at h2
    · rcases Nat.lt_trichotomy b.toNat c.toNat with hbc | hbc | hbc
      · simp [show a.toNat < c.toNat by omega]
      · have nab : ¬ a.toNat < b.toNat := by omega
        have nba : ¬ b.toNat < a.toNat := by omega
        have nbc : ¬ b.toNat < c.toNat := by omega
        have ncb : ¬ c.toNat < b.toNat := by omega
        have nac : ¬ a.toNat < c.toNat := by omega
        have nca : ¬ c.toNat < a.toNat := by omega
        simp only [if_neg nab, if_neg nba] at h1
        simp only [if_neg nbc, if_neg ncb] at h2
        simp only [if_neg nac, if_neg nca]
        exact charListLe_trans as bs cs h1 h2
      · have n1 : ¬ b.toNat < c.toNat := by omega
        simp [n1, hbc] at h2
    · have n1 : ¬ a.toNat < b.toNat := by omega
      simp [n1, hab] at h1

/-- Ascending comparison of heroes by name, the sort key of sort({name:'asc'}). -/
def nameLe (a b : Hero) : Prop := charListLe a.name.toList b.name.toList = true

/-- Descending comparison of heroes by name. -/
def nameGe (a b : Hero) : Prop := charListLe b.name.toList a.name.toList = true

instance : DecidableRel nameLe := fun a b =>
  inferInstanceAs (Decidable (charListLe a.name.toList b.name.toList = true))

instance : DecidableRel nameGe := fun a b =>
  inferInstanceAs (Decidable (charListLe b.name.toList a.name.toList = true))

instance : IsTotal Hero nameLe := ⟨fun _ _ => charListLe_total _ _⟩

instance : IsTrans Hero nameLe := ⟨fun _ _ _ => charListLe_trans _ _ _⟩

instance : IsTotal Hero nameGe := ⟨fun _ _ => charListLe_total _ _⟩

instance : IsTrans Hero nameGe := ⟨fun _ _ _ h1 h2 => charListLe_trans _ _ _ h2 h1⟩

/-- `sort({name:'asc'})`: the store returns the documents sorted by name
ascending (stable sort). -/
def sortByNameAsc (hs : List Hero) : List Hero := hs.insertionSort nameLe

/-- The sort direction the store's query builder accepts for a sort value
(the by-name search handler passes the request's query string as the SORT
VALUE of sort({name: value})).  The value is checked case-insensitively:
asc, ascending and 1 sort ascending; desc, descending and -1 sort descending;
an empty (falsy) value is coerced to ascending (value || 1); for EVERY other
string, sort() throws TypeError "Invalid sort value" synchronously at
query-build time, before exec is ever reached, so the request produces no
response at all. -/
def sortDirection (v : String) : Option Bool :=
  let w : String := String.mk (v.toList.map Char.toLower)
  if w = "" ∨ w = "asc" ∨ w = "ascending" ∨ w = "1" then some true
  else if w = "desc" ∨ w = "descending" ∨ w = "-1" then some false
  else none

/-- The store's sort on the name key for an accepted direction.  A sort never
filters: the result is a permutation of the input collection. -/
def mongooseSortNameValue (ascending : Bool) (hs : List Hero) : List Hero :=
  if ascending then hs.insertionSort nameLe else hs.insertionSort nameGe

/-- Errors the store can report to an exec callback. -/
inductive StoreError where
  | castError
deriving DecidableEq, Repr

/-- `Hero.findById(id).exec(cb)`: a malformed identifier is reported as a
CastError; a well-formed identifier yields the matching document or null. -/
def findByIdExec (s : Store) (i : Ident) : Except StoreError (Option Hero) :=
  match i.validKey with
  | none => Except.error StoreError.castError
  | some k => Except.ok (s.heroes.find? (fun h => h.id == k))

/-- GET /heroes (hero.js lines 40-47): find({}) with no filter, sorted by name
ascending, skip (page-1)*10, limit 10.  `storeErr` is whether the store reports
an error to the exec callback. -/
def getHeroes (s : Store) (pageParam : Option Nat) (storeErr : Bool) :
    Outcome (List Hero) :=
  let page := pageOrDefault pageParam
  if storeErr then errorBranch (List Hero)
  else Outcome.json (pageWindow DEFAULT_HEROES_PER_PAGE page (sortByNameAsc s.heroes))

/-- GET /heroes/:id (hero.js lines 50-56): findById, then res.json(hero) — the
hero may be null (no matching document), in which case null is serialised with
status 200. -/
def getHeroById (s : Store) (i : Ident) (storeErr : Bool) : Outcome (Option Hero) :=
  if storeErr then errorBranch (Option Hero)
  else
    match findByIdExec s i with
    | Except.error _ => errorBranch (Option Hero)
    | Except.ok h => Outcome.json h

/-- POST /search/heroes/by-name (hero.js lines 64-70): the handler runs
`Hero.find({}).sort({name: name})` where `name` is the request body's query
string — find({}) applies NO filter, and the query string is used only as the
sort value.  If the query string is not a valid sort direction, sort() throws
its TypeError before exec, so the async handler rejects without a response
(the exec callback — and hence any storeErr — is never reached). -/
def searchByName (s : Store) (query : String) (pageParam : Option Nat)
    (storeErr : Bool) : Outcome (List Hero) :=
  let page := pageOrDefault pageParam
  match sortDirection query with
  | none => Outcome.typeError
  | some dir =>
    if storeErr then errorBranch (List Hero)
    else Outcome.json (pageWindow DEFAULT_HEROES_PER_PAGE page
      (mongooseSortNameValue dir s.heroes))

/-- The query paths declared by the hero schema (models/hero.js).  The six
stat attributes live at powerstats.*; the schema declares NO top-level paths
named intelligence, strength, speed, durability, power or combat. -/
def heroSchemaPaths : List String :=
  ["_id", "original_id", "name", "slug",
   "powerstats.intelligence", "powerstats.strength", "powerstats.speed",
   "powerstats.durability", "powerstats.power", "powerstats.combat",
   "appearance.gender", "appearance.race", "appearance.height",
   "appearance.weight", "appearance.eyeColor", "appearance.hairColor",
   "biography.fullName", "biography.alterEgos", "biography.aliases",
   "biography.placeOfBirth", "biography.firstAppearance",
   "biography.publisher", "biography.alignment",
   "work.occupation", "work.base",
   "connections.groupAffiliation", "connections.relatives",
   "images.xs", "images.sm", "images.md", "images.lg",
   "createdAt", "updatedAt"]

/-- The numeric value a hero document holds at a given numeric schema path. -/
def heroNumFieldAtPath (h : Hero) (path : String) : Option Nat :=
  if path = "_id" then some h.id
  else if path = "original_id" then some h.original_id
  else if path = "powerstats.intelligence" then some h.powerstats.intelligence
  else if path = "powerstats.strength" then some h.powerstats.strength
  else if path = "powerstats.speed" then some h.powerstats.speed
  else if path = "powerstats.durability" then some h.powerstats.durability
  else if path = "powerstats.power" then some h.powerstats.power
  else if path = "powerstats.combat" then some h.powerstats.combat
  else if path = "createdAt" then some h.createdAt
  else if path = "updatedAt" then some h.updatedAt
  else none

/-- One `where(path).gte(v)` clause of the min-stats query, as the store
executes it.  The repository pins mongoose ≥ 6.2.5 (the isObjectIdOrHexString
import), and mongoose 6 casts query filters with strictQuery enabled by
default: a filter path that is NOT a schema path is silently stripped from the
query, i.e. the clause imposes no constraint.  A path that is a schema path is
the usual numeric $gte match. -/
def whereGteClause (path : String) (v : Nat) (h : Hero) : Bool :=
  if heroSchemaPaths.contains path then
    match heroNumFieldAtPath h path with
    | some x => v ≤ x
    | none => false
  else true

/-- The request body of the min-stats search: zero or more of the six stat
fields. -/
structure MinStatsBody where
  intelligence : Option Nat := none
  strength : Option Nat := none
  speed : Option Nat := none
  durability : Option Nat := none
  power : Option Nat := none
  combat : Option Nat := none
deriving DecidableEq, Repr

/-- POST /search/heroes/by-min-stats (hero.js lines 89-107): each body field
defaults to 0 via `req.body.X || 0`; the handler chains
`Hero.where('intelligence').gte(...)` ... `.where('combat').gte(...)` on the
TOP-LEVEL field names (not powerstats.*), then skip/limit.  No sort is
applied, so the store's natural order is kept. -/
def searchByMinStats (s : Store) (b : MinStatsBody) (pageParam : Option Nat)
    (storeErr : Bool) : Outcome (List Hero) :=
  let intelligence := b.intelligence.getD 0
  let strength := b.strength.getD 0
  let speed := b.speed.getD 0
  let durability := b.durability.getD 0
  let power := b.power.getD 0
  let combat := b.combat.getD 0
  let page := pageOrDefault pageParam
  if storeErr then errorBranch (List Hero)
  else Outcome.json (pageWindow DEFAULT_HEROES_PER_PAGE page
    (s.heroes.filter (fun h =>
      whereGteClause "intelligence" intelligence h &&
      whereGteClause "strength" strength h &&
      whereGteClause "speed" speed h &&
      whereGteClause "durability" durability h &&
      whereGteClause "power" power h &&
      whereGteClause "combat" combat h)))

/-- POST /heroes/:id/comments (hero.js lines 114-131): findById, then —
without any null check — builds `new Comment({hero: hero._id, text})` and
saves it.  When findById yields null (well-formed identifier, no matching
hero), reading `hero._id` on null raises an uncaught TypeError before any
comment is constructed.  `cid`/`now` are the store-assigned identifier and
timestamp of a successful insert; `saveErr` is whether comment.save() rejects
(its catch block calls handleError).  Returns the request outcome and the
resulting store state. -/
def createComment (s : Store) (i : Ident) (text : String) (cid now : Nat)
    (storeErr saveErr : Bool) : Outcome Comment × Store :=
  if storeErr then (errorBranch Comment, s)
  else
    match findByIdExec s i with
    | Except.error _ => (errorBranch Comment, s)
    | Except.ok none => (Outcome.typeError, s)
    | Except.ok (some hero) =>
      let c : Comment :=
        { id := cid, hero := hero.id, text := text, createdAt := now, updatedAt := now }
      if saveErr then (errorBranch Comment, s)
      else (Outcome.json c, { s with comments := s.comments ++ [c] })

/-- The value a comment document holds at the field `timestamps`, the sort key
of `sort('-timestamps')`.  Modelled from the spec: the comment schema (file not
in the snapshot) maintains createdAt/updatedAt via the timestamps schema
OPTION; no document field named `timestamps` exists, so the key is missing on
every document. -/
def commentTimestampsField (_c : Comment) : Option Nat := none

/-- Descending order on an optional document field as the store sorts it: two
missing keys tie, a present key sorts before a missing one in descending
order. -/
def optDescLe (x y : Option Nat) : Prop :=
  match x, y with
  | none, none => True
  | none, some _ => False
  | some _, none => True
  | some a, some b => b ≤ a

instance : DecidableRel optDescLe := fun x y =>
  match x, y with
  | none, none => inferInstanceAs (Decidable True)
  | none, some _ => inferInstanceAs (Decidable False)
  | some _, none => inferInstanceAs (Decidable True)
  | some _, some _ => inferInstanceAs (Decidable (_ ≤ _))

/-- The comparison `sort('-timestamps')` induces on comment documents. -/
def tsDescRel (a b : Comment) : Prop :=
  optDescLe (commentTimestampsField a) (commentTimestampsField b)

instance : DecidableRel tsDescRel := fun a b =>
  inferInstanceAs (Decidable (optDescLe (commentTimestampsField a) (commentTimestampsField b)))

/-- `sort('-timestamps')` on a comment result list: a stable sort on the
(missing-everywhere) `timestamps` key. -/
def sortCommentsByTimestampsDesc (cs : List Comment) : List Comment :=
  cs.insertionSort tsDescRel

/-- GET /heroes/:id/comments (hero.js lines 134-144): findById, then — without
a null check — `Comment.find({hero: hero._id}).sort('-timestamps')` with
skip (page-1)*3, limit 3.  A null hero raises a TypeError on `hero._id`.
`storeErr` / `commentsErr` are store errors reported to the outer and inner
exec callbacks. -/
def listComments (s : Store) (i : Ident) (pageParam : Option Nat)
    (storeErr commentsErr : Bool) : Outcome (List Comment) :=
  let page := pageOrDefault pageParam
  if storeErr then errorBranch (List Comment)
  else
    match findByIdExec s i with
    | Except.error _ => errorBranch (List Comment)
    | Except.ok none => Outcome.typeError
    | Except.ok (some hero) =>
      if commentsErr then errorBranch (List Comment)
      else Outcome.json (pageWindow DEFAULT_COMMENTS_PER_PAGE page
        (sortCommentsByTimestampsDesc (s.comments.filter (fun c => c.hero == hero.id))))

/-- The spec's search condition for the by-name endpoint: the hero's name
lower-cased starts with the query lower-cased. -/
def lowerStartsWith (name q : String) : Bool :=
  (q.toList.map Char.toLower).isPrefixOf (name.toList.map Char.toLower)

/-- The spec's ordering condition for comment listings: creation times are
non-increasing along the returned list. -/
def creationTimeDesc (cs : List Comment) : Prop :=
  List.Pairwise (fun a b => b.createdAt ≤ a.createdAt) cs

instance : Decidable (creationTimeDesc cs) :=
  inferInstanceAs (Decidable (List.Pairwise _ cs))

/-! Concrete documents used by witnesses and counterexamples. -/

def testAppearance : Appearance := ⟨"", "", [], [], "", ""⟩

def testBiography : Biography := ⟨"", "", [], "", "", "", ""⟩

def mkHero (id : Nat) (name : String) (ps : Powerstats) : Hero :=
  { id := id, original_id := id, name := name, slug := name, powerstats := ps,
    appearance := testAppearance, biography := testBiography,
    work := ⟨"", ""⟩, connections := ⟨"", ""⟩, images := ⟨"", "", "", ""⟩,
    createdAt := 0, updatedAt := 0 }

def batman : Hero := mkHero 1 "Batman" ⟨100, 26, 27, 50, 47, 100⟩

def flash : Hero := mkHero 2 "Flash" ⟨88, 48, 100, 60, 100, 60⟩

def weakHero : Hero := mkHero 3 "WeakHero" ⟨50, 10, 10, 10, 10, 10⟩

def cOld : Comment := ⟨1, 1, "older comment", 5, 5⟩

def cNew : Comment := ⟨2, 1, "newer comment", 10, 10⟩

/-! General facts about the page window and the store's sorts. -/

theorem pageWindow_sublist (limit page : Nat) (l : List α) :
    (pageWindow limit page l).Sublist l := by
  unfold pageWindow
  exact (List.take_sublist _ _).trans (List.drop_sublist _ _)

/-- Concatenating the first k pages of a result list yields its first k*m
elements. -/
theorem pages_flatten (m k : Nat) (l : List α) :
    (((List.range k).map (fun i => pageWindow m (i+1) l)).flatten) = l.take (k*m) := by
  induction k with
  | zero => simp
  | succ k ih =>
    rw [List.range_succ, List.map_append, List.flatten_append]
    simp only [List.map_cons, List.map_nil, List.flatten_cons, List.flatten_nil,
      List.append_nil]
    rw [ih]
    unfold pageWindow
    rw [show (k+1-1)*m = k*m by simp, show (k+1)*m = k*m + m from Nat.succ_mul k m,
      List.take_add]

/-- Membership across all pages of a result list is membership in the list. -/
theorem mem_pages_iff (m : Nat) (hm : 0 < m) (l : List α) (a : α) :
    (∃ p, 1 ≤ p ∧ a ∈ pageWindow m p l) ↔ a ∈ l := by
  constructor
  · rintro ⟨p, -, hmem⟩
    exact (pageWindow_sublist m p l).mem hmem
  · intro ha
    have hk : l.length ≤ l.length * m := Nat.le_mul_of_pos_right _ hm
    have hmem : a ∈ (((List.range l.length).map
        (fun i => pageWindow m (i+1) l)).flatten) := by
      rw [pages_flatten, List.take_of_length_le hk]
      exact ha
    rcases List.mem_flatten.mp hmem with ⟨s, hs, has⟩
    rcases List.mem_map.mp hs with ⟨i, _, rfl⟩
    exact ⟨i+1, by omega, has⟩

/-- In either accepted direction, the sorted result is a permutation of the
collection: a sort never filters. -/
theorem mongooseSortNameValue_perm (dir : Bool) (hs : List Hero) :
    (mongooseSortNameValue dir hs).Perm hs := by
  unfold mongooseSortNameValue
  split
  · exact List.perm_insertionSort nameLe hs
  · exact List.perm_insertionSort nameGe hs

/-- The by-name handler on a query accepted as a sort direction: the JSON page
of the collection sorted in that direction. -/
theorem searchByName_valid (s : Store) (q : String) (p : Nat) (dir : Bool)
    (hq : sortDirection q = some dir) :
    searchByName s q (some p) false =
      Outcome.json (pageWindow DEFAULT_HEROES_PER_PAGE p
        (mongooseSortNameValue dir s.heroes)) := by
  unfold searchByName
  rw [hq]
  rfl

/-- The by-name handler on a query rejected as a sort value: the query builder
throws before exec and no response is produced, for every page and store-error
flag. -/
theorem searchByName_invalid (s : Store) (q : String) (pp : Option Nat)
    (e : Bool) (hq : sortDirection q = none) :
    searchByName s q pp e = Outcome.typeError := by
  unfold searchByName
  rw [hq]

theorem sortByNameAsc_perm (hs : List Hero) : (sortByNameAsc hs).Perm hs :=
  List.perm_insertionSort nameLe hs

theorem sortByNameAsc_sorted (hs : List Hero) : List.Sorted nameLe (sortByNameAsc hs) :=
  List.sorted_insertionSort nameLe hs

/-- Ordered insertion under an everywhere-true relation prepends. -/
theorem orderedInsert_all (r : α → α → Prop) [DecidableRel r]
    (hr : ∀ x y, r x y) (a : α) :
    ∀ l : List α, List.orderedInsert r a l = a :: l
  | [] => rfl
  | b :: l => by simp [List.orderedInsert, hr a b]

/-- Insertion sort under an everywhere-true relation is the identity. -/
theorem insertionSort_all (r : α → α → Prop) [DecidableRel r]
    (hr : ∀ x y, r x y) :
    ∀ l : List α, List.insertionSort r l = l
  | [] => rfl
  | a :: l => by
    rw [List.insertionSort, insertionSort_all r hr l, orderedInsert_all r hr]

/-- The comment sort key `timestamps` is missing on every document, so the
relation it induces holds everywhere and sort('-timestamps') leaves the
store's natural order untouched. -/
theorem sortComments_eq_self (cs : List Comment) :
    sortCommentsByTimestampsDesc cs = cs :=
  insertionSort_all tsDescRel
    (fun _ _ => by simp [tsDescRel, commentTimestampsField, optDescLe]) cs

/-- Page p of the hero listing as the GET /heroes handler computes it. -/
def heroesPage (s : Store) (p : Nat) : List Hero :=
  pageWindow DEFAULT_HEROES_PER_PAGE p (sortByNameAsc s.heroes)

/-! The claims. -/

/-- C1: the claim says POST /search/heroes/by-name returns a hero iff its name
lower-cased starts with the query lower-cased, sorted by name.  The code runs
Hero.find({}).sort({name: query}) — the query is a sort VALUE, never a filter:
for the query "fla" the query builder throws TypeError "Invalid sort value"
and no response is produced, so Flash, whose name does start with "fla", is
never returned; while for the direction-string query "asc" the whole unfiltered
collection comes back, so Batman is returned although "batman" does not start
with "asc". -/
theorem c1_by_name_filter_never_applied :
    (lowerStartsWith "Flash" "fla" = true ∧
     searchByName { heroes := [flash], comments := [] } "fla" (some 1) false
       = Outcome.typeError ∧
     (Outcome.typeError : Outcome (List Hero)).statusCode = none) ∧
    (lowerStartsWith "Batman" "asc" = false ∧
     searchByName { heroes := [batman], comments := [] } "asc" (some 1) false
       = Outcome.json [batman]) := by
  exact ⟨⟨by decide, by decide, rfl⟩, by decide, by decide⟩

/-- C2: the claim says POST /search/heroes/by-min-stats returns a hero iff all
six of its powerstats.* fields meet the query minima.  The code chains
where('intelligence')...where('combat') on TOP-LEVEL field names, which are not
schema paths (the stats live at powerstats.*); the store strips the non-schema
filter paths, so a hero whose powerstats.intelligence is 50 is still returned
for the query {intelligence: 95}. -/
theorem c2_min_stats_ignores_powerstats :
    weakHero.powerstats.intelligence < 95 ∧
    searchByMinStats { heroes := [weakHero], comments := [] }
      { intelligence := some 95 } (some 1) false = Outcome.json [weakHero] := by
  constructor <;> decide

/-- C3: the claim says POST /heroes/:id/comments on a nonexistent hero fails
with a not-found error and creates no comment.  The code never checks the
findById result for null: for a well-formed identifier matching no hero it
dereferences hero._id on null, raising an uncaught TypeError — no response of
any status is produced (and for a malformed identifier the CastError branch
calls the undefined handleError, raising a ReferenceError).  The comment
collection is indeed left unchanged. -/
theorem c3_comment_on_missing_hero_type_error :
    createComment { heroes := [batman], comments := [cOld] } ⟨some 99⟩
        "hello" 7 7 false false
      = (Outcome.typeError, { heroes := [batman], comments := [cOld] }) ∧
    (Outcome.typeError : Outcome Comment).statusCode = none ∧
    createComment { heroes := [batman], comments := [cOld] } ⟨none⟩
        "hello" 7 7 false false
      = (Outcome.referenceError, { heroes := [batman], comments := [cOld] }) := by
  refine ⟨by decide, rfl, by decide⟩

/-- C4: the claim says GET /heroes/:id/comments returns the hero's comments in
non-increasing creation-time order (3 per page).  The code sorts by the
document field `timestamps`, which no comment has (the schema keeps
createdAt/updatedAt), so the natural order is returned: with an older comment
inserted before a newer one, page 1 comes back oldest-first, violating the
claimed order. -/
theorem c4_comments_not_creation_sorted :
    listComments { heroes := [batman], comments := [cOld, cNew] } ⟨some 1⟩
        (some 1) false false
      = Outcome.json [cOld, cNew] ∧
    cOld.createdAt < cNew.createdAt ∧
    ¬ creationTimeDesc [cOld, cNew] := by
  refine ⟨by decide, by decide, by decide⟩

/-- C7: the claim says GET /heroes/:id with a malformed identifier fails with a
400-class validation error.  The code's error branch for the store's CastError
calls handleError, an identifier bound nowhere in the module, so the request
dies with a ReferenceError and no HTTP response — neither a 400, nor a 500,
nor a 200 — is produced. -/
theorem c7_malformed_id_reference_error :
    getHeroById { heroes := [batman], comments := [] } ⟨none⟩ false
      = Outcome.referenceError ∧
    (Outcome.referenceError : Outcome (Option Hero)).statusCode = none := by
  refine ⟨by decide, rfl⟩

/-- C10: handleError is bound nowhere in the module scope of routers/hero.js,
so whenever the store reports an error to an exec callback (modelled by the
storeErr flag; for the by-name endpoint the query must be a valid sort
direction, since otherwise sort() throws before exec and no callback ever
runs), every one of the six handlers' error branches raises a ReferenceError
and no JSON response is produced for that request. -/
theorem c10_handle_error_undefined (s : Store) (pp : Option Nat) (i : Ident)
    (q text : String) (b : MinStatsBody) (cid now : Nat) (dir : Bool)
    (hq : sortDirection q = some dir) :
    handleErrorInScope = false ∧
    getHeroes s pp true = Outcome.referenceError ∧
    getHeroById s i true = Outcome.referenceError ∧
    searchByName s q pp true = Outcome.referenceError ∧
    searchByMinStats s b pp true = Outcome.referenceError ∧
    createComment s i text cid now true false = (Outcome.referenceError, s) ∧
    listComments s i pp true false = Outcome.referenceError ∧
    (∀ (α : Type) (body : α), (Outcome.referenceError : Outcome α) ≠ Outcome.json body) := by
  refine ⟨rfl, rfl, rfl, ?_, rfl, rfl, rfl,
    fun α body hcontra => Outcome.noConfusion hcontra⟩
  unfold searchByName
  rw [hq]
  rfl

theorem c10_handle_error_undefined_witness :
    handleErrorInScope = false ∧
    getHeroes { heroes := [batman], comments := [] } none true
      = Outcome.referenceError ∧
    getHeroById { heroes := [batman], comments := [] } ⟨some 1⟩ true
      = Outcome.referenceError ∧
    searchByName { heroes := [batman], comments := [] } "asc" none true
      = Outcome.referenceError ∧
    searchByMinStats { heroes := [batman], comments := [] } {} none true
      = Outcome.referenceError ∧
    createComment { heroes := [batman], comments := [] } ⟨some 1⟩ "hello" 7 8 true false
      = (Outcome.referenceError, { heroes := [batman], comments := [] }) ∧
    listComments { heroes := [batman], comments := [] } ⟨some 1⟩ none true false
      = Outcome.referenceError ∧
    (∀ (α : Type) (body : α), (Outcome.referenceError : Outcome α) ≠ Outcome.json body) :=
  c10_handle_error_undefined { heroes := [batman], comments := [] } none ⟨some 1⟩
    "asc" "hello" {} 7 8 true (by decide)

/-- C8 counterexample: with a store holding only the hero with key 1, GET
/heroes/:id for the well-formed identifier 2 yields res.json(null) — a 200
success with a null payload, not an explicit not-found signal — so the claim
as stated is false on the code. -/
theorem c8_counterexample_null_success :
    getHeroById { heroes := [batman], comments := [] } ⟨some 2⟩ false
      = Outcome.json (none : Option Hero) ∧
    (Outcome.json (none : Option Hero)).statusCode = some 200 := by
  refine ⟨by decide, rfl⟩

/-- C8 (amended): for every well-formed identifier matching no stored hero,
GET /heroes/:id succeeds with a null payload (HTTP 200, JSON body null); no
explicit not-found signal is produced. -/
theorem c8_missing_hero_yields_null_200 (s : Store) (i : Ident) (k : Nat)
    (hk : i.validKey = some k) (habs : ∀ h ∈ s.heroes, h.id ≠ k) :
    getHeroById s i false = Outcome.json (none : Option Hero) ∧
    (getHeroById s i false).statusCode = some 200 := by
  have hfind : s.heroes.find? (fun h => h.id == k) = none :=
    List.find?_eq_none.mpr (fun x hx => by simpa using habs x hx)
  have h1 : getHeroById s i false = Outcome.json (none : Option Hero) := by
    simp [getHeroById, findByIdExec, hk, hfind]
  exact ⟨h1, by rw [h1]; rfl⟩

theorem c8_missing_hero_yields_null_200_witness :
    getHeroById { heroes := [batman], comments := [] } ⟨some 5⟩ false
      = Outcome.json (none : Option Hero) ∧
    (getHeroById { heroes := [batman], comments := [] } ⟨some 5⟩ false).statusCode
      = some 200 :=
  c8_missing_hero_yields_null_200 { heroes := [batman], comments := [] } ⟨some 5⟩ 5
    rfl (by decide)

/-- C5: for every page p ≥ 1, GET /heroes returns the window of the name-sorted
hero records at offset (p-1)×10 with limit 10; the returned page is sorted by
name ascending, holds at most 10 records, applies no filter (every record is
from the store), a page beyond the last is the empty sequence (still a JSON
response, not an error), and an omitted page parameter defaults to page 1. -/
theorem c5_get_heroes_contract (s : Store) (p : Nat) (_hp : 1 ≤ p) :
    getHeroes s (some p) false = Outcome.json (heroesPage s p) ∧
    List.Sorted nameLe (heroesPage s p) ∧
    (heroesPage s p).length ≤ DEFAULT_HEROES_PER_PAGE ∧
    (∀ h ∈ heroesPage s p, h ∈ s.heroes) ∧
    (s.heroes.length ≤ (p - 1) * DEFAULT_HEROES_PER_PAGE → heroesPage s p = []) ∧
    getHeroes s none false = getHeroes s (some 1) false := by
  refine ⟨rfl, ?_, ?_, ?_, ?_, rfl⟩
  · exact List.Pairwise.sublist (pageWindow_sublist _ _ _) (sortByNameAsc_sorted s.heroes)
  · unfold heroesPage pageWindow
    exact List.length_take_le _ _
  · intro h hh
    exact (sortByNameAsc_perm s.heroes).subset ((pageWindow_sublist _ _ _).subset hh)
  · intro hlen
    unfold heroesPage pageWindow
    have hle : (sortByNameAsc s.heroes).length ≤ (p - 1) * DEFAULT_HEROES_PER_PAGE := by
      rw [(sortByNameAsc_perm s.heroes).length_eq]
      exact hlen
    rw [List.drop_eq_nil_of_le hle]
    rfl

theorem c5_get_heroes_contract_witness :
    getHeroes { heroes := [flash, batman], comments := [] } (some 1) false
      = Outcome.json (heroesPage { heroes := [flash, batman], comments := [] } 1) ∧
    List.Sorted nameLe (heroesPage { heroes := [flash, batman], comments := [] } 1) ∧
    (heroesPage { heroes := [flash, batman], comments := [] } 1).length
      ≤ DEFAULT_HEROES_PER_PAGE ∧
    (∀ h ∈ heroesPage { heroes := [flash, batman], comments := [] } 1,
      h ∈ ({ heroes := [flash, batman], comments := [] } : Store).heroes) ∧
    (({ heroes := [flash, batman], comments := [] } : Store).heroes.length
        ≤ (1 - 1) * DEFAULT_HEROES_PER_PAGE →
      heroesPage { heroes := [flash, batman], comments := [] } 1 = []) ∧
    getHeroes { heroes := [flash, batman], comments := [] } none false
      = getHeroes { heroes := [flash, batman], comments := [] } (some 1) false :=
  c5_get_heroes_contract { heroes := [flash, batman], comments := [] } 1 (by decide)

/-- C6: for a store of distinct hero records and any k covering the collection
(k×10 ≥ number of records), every page of GET /heroes holds at most 10
records, the pages are pairwise disjoint, and their concatenation is exactly
the full name-sorted hero list (whose members are precisely the store's
heroes). -/
theorem c6_pages_partition (s : Store) (k : Nat) (hnd : s.heroes.Nodup)
    (hk : s.heroes.length ≤ k * DEFAULT_HEROES_PER_PAGE) :
    (∀ p, getHeroes s (some p) false = Outcome.json (heroesPage s p)) ∧
    (∀ p, (heroesPage s p).length ≤ DEFAULT_HEROES_PER_PAGE) ∧
    ((List.range k).map (fun i => heroesPage s (i+1))).flatten = sortByNameAsc s.heroes ∧
    List.Pairwise List.Disjoint ((List.range k).map (fun i => heroesPage s (i+1))) ∧
    (∀ h, h ∈ sortByNameAsc s.heroes ↔ h ∈ s.heroes) := by
  have hlen : (sortByNameAsc s.heroes).length = s.heroes.length :=
    (sortByNameAsc_perm s.heroes).length_eq
  have hfl : ((List.range k).map (fun i => heroesPage s (i+1))).flatten
      = sortByNameAsc s.heroes := by
    unfold heroesPage
    rw [pages_flatten]
    exact List.take_of_length_le (by rw [hlen]; exact hk)
  have hnd2 : (sortByNameAsc s.heroes).Nodup :=
    ((sortByNameAsc_perm s.heroes).nodup_iff).mpr hnd
  have hndfl : ((List.range k).map (fun i => heroesPage s (i+1))).flatten.Nodup := by
    rw [hfl]; exact hnd2
  refine ⟨fun p => rfl, ?_, hfl, (List.nodup_flatten.mp hndfl).2,
    fun h => (sortByNameAsc_perm s.heroes).mem_iff⟩
  intro p
  unfold heroesPage pageWindow
  exact List.length_take_le _ _

theorem c6_pages_partition_witness :
    (∀ p, getHeroes { heroes := [flash, batman], comments := [] } (some p) false
      = Outcome.json (heroesPage { heroes := [flash, batman], comments := [] } p)) ∧
    (∀ p, (heroesPage { heroes := [flash, batman], comments := [] } p).length
      ≤ DEFAULT_HEROES_PER_PAGE) ∧
    ((List.range 1).map
      (fun i => heroesPage { heroes := [flash, batman], comments := [] } (i+1))).flatten
      = sortByNameAsc ({ heroes := [flash, batman], comments := [] } : Store).heroes ∧
    List.Pairwise List.Disjoint ((List.range 1).map
      (fun i => heroesPage { heroes := [flash, batman], comments := [] } (i+1))) ∧
    (∀ h, h ∈ sortByNameAsc ({ heroes := [flash, batman], comments := [] } : Store).heroes
      ↔ h ∈ ({ heroes := [flash, batman], comments := [] } : Store).heroes) :=
  c6_pages_partition { heroes := [flash, batman], comments := [] } 1 (by decide) (by decide)

/-- A hero appears on some page of the by-name search for a query accepted as
a sort direction iff it is in the store at all: find({}) applies no filter and
the sort only reorders. -/
theorem searchByName_mem_all_pages (s : Store) (q : String) (h : Hero)
    (dir : Bool) (hq : sortDirection q = some dir) :
    (∃ p l, 1 ≤ p ∧ searchByName s q (some p) false = Outcome.json l ∧ h ∈ l)
      ↔ h ∈ s.heroes := by
  constructor
  · rintro ⟨p, l, _, hjson, hmem⟩
    rw [searchByName_valid s q p dir hq] at hjson
    injection hjson with he
    subst he
    exact (mongooseSortNameValue_perm dir s.heroes).subset
      ((pageWindow_sublist _ _ _).subset hmem)
  · intro hmem
    have hall := (mem_pages_iff DEFAULT_HEROES_PER_PAGE (by decide)
        (mongooseSortNameValue dir s.heroes) h).mpr
      ((mongooseSortNameValue_perm dir s.heroes).mem_iff.mpr hmem)
    rcases hall with ⟨p, hp, hw⟩
    exact ⟨p, _, hp, searchByName_valid s q p dir hq, hw⟩

/-- C9 counterexample: on a store holding only Batman, the query "asc" (a
valid sort direction) reaches Batman on page 1, while the query "fla" makes
the query builder throw its TypeError — no page of it returns a JSON body at
all — so the two query strings do not reach the same set of heroes: the claim
as stated is false on the code. -/
theorem c9_counterexample_query_changes_membership :
    ¬ (∀ h : Hero,
      (∃ p l, 1 ≤ p ∧ searchByName { heroes := [batman], comments := [] } "asc"
          (some p) false = Outcome.json l ∧ h ∈ l) ↔
      (∃ p l, 1 ≤ p ∧ searchByName { heroes := [batman], comments := [] } "fla"
          (some p) false = Outcome.json l ∧ h ∈ l)) := by
  intro hcontra
  have h1 : ∃ p l, 1 ≤ p ∧ searchByName { heroes := [batman], comments := [] }
      "asc" (some p) false = Outcome.json l ∧ batman ∈ l :=
    ⟨1, [batman], le_refl 1, by decide, by decide⟩
  rcases (hcontra batman).mp h1 with ⟨p, l, _, heq, _⟩
  rw [searchByName_invalid _ _ _ _ (by decide)] at heq
  exact Outcome.noConfusion heq

/-- C9 (amended): the by-name search's query string changes membership only
through its validity as a sort value.  For any two query strings accepted as
sort directions, the set of heroes reachable across all pages is the same and
is the entire hero collection; for a query string that is not a valid sort
direction the query builder throws a TypeError and no page returns any
heroes. -/
theorem c9_membership_same_for_valid_directions (s : Store) (q1 q2 : String)
    (h : Hero) (d1 d2 : Bool) (hq1 : sortDirection q1 = some d1)
    (hq2 : sortDirection q2 = some d2) :
    ((∃ p l, 1 ≤ p ∧ searchByName s q1 (some p) false = Outcome.json l ∧ h ∈ l)
      ↔ h ∈ s.heroes) ∧
    ((∃ p l, 1 ≤ p ∧ searchByName s q1 (some p) false = Outcome.json l ∧ h ∈ l)
      ↔ (∃ p l, 1 ≤ p ∧ searchByName s q2 (some p) false = Outcome.json l ∧ h ∈ l)) ∧
    (∀ q pp, sortDirection q = none → searchByName s q pp false = Outcome.typeError) :=
  ⟨searchByName_mem_all_pages s q1 h d1 hq1,
   (searchByName_mem_all_pages s q1 h d1 hq1).trans
     (searchByName_mem_all_pages s q2 h d2 hq2).symm,
   fun q pp hq => searchByName_invalid s q pp false hq⟩

theorem c9_membership_same_for_valid_directions_witness :
    ((∃ p l, 1 ≤ p ∧ searchByName { heroes := [batman], comments := [] } "asc"
        (some p) false = Outcome.json l ∧ batman ∈ l)
      ↔ batman ∈ ({ heroes := [batman], comments := [] } : Store).heroes) ∧
    ((∃ p l, 1 ≤ p ∧ searchByName { heroes := [batman], comments := [] } "asc"
        (some p) false = Outcome.json l ∧ batman ∈ l)
      ↔ (∃ p l, 1 ≤ p ∧ searchByName { heroes := [batman], comments := [] } "DESC"
        (some p) false = Outcome.json l ∧ batman ∈ l)) ∧
    (∀ q pp, sortDirection q = none →
      searchByName { heroes := [batman], comments := [] } q pp false
        = Outcome.typeError) :=
  c9_membership_same_for_valid_directions { heroes := [batman], comments := [] }
    "asc" "DESC" batman true false (by decide) (by decide)

end HeroApi
